import Mathlib

/-!
ClipForge GPU effect-compositing core: a shallow embedding

This file embeds the GPU effect pipeline of the ClipForge video editor
(`app/src/main/cpp/gpu/`) in Lean 4 and proves properties of it.

Modelling conventions:
* C++ `float` values are modelled as exact rationals (`ℚ`).  Every arithmetic
  operation appearing in the embedded code (`clamp`, `+`, `-`, `*`, `/` by
  constants) is exact on the inputs the claims are about, so the rational
  shadow semantics agrees with the source on the shape of every computation.
  The float literal `3.14159f` of the source is carried as the rational
  `3.14159` (it is a literal constant, not the real number π).
* `std::unordered_map` is modelled as an association list with unique keys:
  `mapFind` is `find`, `mapInsert` is insert-or-update.  Iteration order of
  the map is never observed by the embedded code paths (the renderer keeps a
  separate `m_effectOrder` vector for ordering).
* `glm::cos`/`glm::sin` are abstracted as function parameters
  `(cosQ sinQ : ℚ → ℚ)`: the claims about `ChromaticAberrationEffect` concern
  the expressions fed to them, not trigonometric identities.
* GL object generation (`glGenFramebuffers` …) is modelled by a monotone
  counter: fresh ids are `nextId + 1, nextId + 2, …` (GL never returns the
  reserved name 0 from `glGen*`).  Framebuffer completeness
  (`glCheckFramebufferStatus`) follows the OpenGL ES 3.0 specification: an
  attachment with zero (or negative) width or height is attachment-incomplete,
  so the status is `GL_FRAMEBUFFER_COMPLETE` iff both dimensions are positive.
* The *content* written by a draw call is modelled by the free term algebra
  `Frame`: drawing the full-screen quad with effect `e` over a source frame
  `f` produces `Frame.applied e f`.  Any concrete shader semantics factors
  through this initial model.
* `eglMakeCurrent`/`eglGetCurrentContext` plumbing is modelled as succeeding;
  the claims under study are about behavior after a successful
  `makeCurrent()`.
-/

namespace ClipForge

/-! ## Association-list maps (model of std::unordered_map) -/

/-- Model of `std::unordered_map<std::string, α>::find`. -/
def mapFind {α : Type} (m : List (String × α)) (k : String) : Option α :=
  match m with
  | [] => none
  | (k', v) :: rest => if k' = k then some v else mapFind rest k

/-- Model of `m[k] = v`: insert-or-update, keeping keys unique. -/
def mapInsert {α : Type} (m : List (String × α)) (k : String) (v : α) :
    List (String × α) :=
  match m with
  | [] => [(k, v)]
  | (k', v') :: rest =>
      if k' = k then (k, v) :: rest else (k', v') :: mapInsert rest k v

/-- Nat-keyed variant (GL object id → data). -/
def natFind {α : Type} (m : List (Nat × α)) (k : Nat) : Option α :=
  match m with
  | [] => none
  | (k', v) :: rest => if k' = k then some v else natFind rest k

/-- Nat-keyed insert-or-update. -/
def natInsert {α : Type} (m : List (Nat × α)) (k : Nat) (v : α) :
    List (Nat × α) :=
  match m with
  | [] => [(k, v)]
  | (k', v') :: rest =>
      if k' = k then (k, v) :: rest else (k', v') :: natInsert rest k v

/-- Remove a Nat key (model of `glDelete*` on a tracked object). -/
def natErase {α : Type} (m : List (Nat × α)) (k : Nat) : List (Nat × α) :=
  match m with
  | [] => []
  | (k', v') :: rest =>
      if k' = k then rest else (k', v') :: natErase rest k

/-- Remove a String key (model of `std::unordered_map::erase(iterator)`). -/
def mapErase {α : Type} (m : List (String × α)) (k : String) :
    List (String × α) :=
  match m with
  | [] => []
  | (k', v') :: rest =>
      if k' = k then rest else (k', v') :: mapErase rest k

/-! ## GPUEffect parameter model (gpu_effect.h / gpu_effect.cpp) -/

/-- Model of `struct EffectParameter` (gpu_effect.h). -/
structure EffectParameter where
  name : String
  uniformName : String
  defaultValue : ℚ
  minValue : ℚ
  maxValue : ℚ
  type : String
deriving Repr, DecidableEq

/-- Model of `enum class EffectCategory` (gpu_effect.h). -/
inductive EffectCategory where
  | COLOR
  | DISTORTION
  | BLUR
  | LIGHT
  | ARTISTIC
  | TEMPORAL
  | COMPOSITE
deriving Repr, DecidableEq

/-- The concrete dynamic type of a `GPUEffect` object: which
`applyCustomUniforms` override runs at the virtual call. `base` is a direct
`GPUEffect` instance (default no-op hook). -/
inductive EffectKind where
  | base
  | colorGrade
  | curves
  | hsl
  | gaussianBlur
  | vignette
  | glow
  | chromaticAberration
  | glitch
  | posterize
  | invert
  | grayscale
deriving Repr, DecidableEq

/-- State of a `GPUEffect` object.  `m_shader` models the
`std::shared_ptr<ShaderProgram>`: `none` is a null pointer, `some b` a
program whose `isValid()` returns `b`.  `m_lutTexture`, `m_curveTexture` and
`m_time` are the extra members of the `ColorGrade`, `Curves` and `Glitch`
subclasses (zero-initialized and unused for the rest). -/
structure GPUEffectState where
  kind : EffectKind
  m_name : String
  m_category : EffectCategory
  m_shader : Option Bool
  m_parameters : List (String × ℚ)
  m_parameterDefinitions : List (String × EffectParameter)
  m_intensity : ℚ := 1
  m_enabled : Bool := true
  m_lutTexture : Nat := 0
  m_curveTexture : Nat := 0
  m_time : ℚ := 0
deriving Repr, DecidableEq

namespace GPUEffectState

/-- Model of `glm::clamp(x, minVal, maxVal) = min(max(x, minVal), maxVal)`. -/
def clampQ (x lo hi : ℚ) : ℚ := min (max x lo) hi

/-- Model of `GPUEffect::isAvailable()`: `m_shader && m_shader->isValid()`. -/
def isAvailable (e : GPUEffectState) : Bool :=
  match e.m_shader with
  | some b => b
  | none => false

/-- Model of `GPUEffect::defineParameter` (gpu_effect.cpp:121-130): registers the
definition and initializes the current value to the default. -/
def defineParameter (e : GPUEffectState) (name uniformName : String)
    (defaultVal minVal maxVal : ℚ) (type : String := "float") :
    GPUEffectState :=
  let param : EffectParameter :=
    ⟨name, uniformName, defaultVal, minVal, maxVal, type⟩
  { e with
    m_parameterDefinitions := mapInsert e.m_parameterDefinitions name param
    m_parameters := mapInsert e.m_parameters name defaultVal }

/-- Model of `GPUEffect::setParameter` (gpu_effect.cpp:26-37): clamp into the defined
range and store; unknown names are a logged no-op returning false. -/
def setParameter (e : GPUEffectState) (paramName : String) (value : ℚ) :
    GPUEffectState × Bool :=
  match mapFind e.m_parameterDefinitions paramName with
  | some def_ =>
      let clampedValue := clampQ value def_.minValue def_.maxValue
      ({ e with m_parameters := mapInsert e.m_parameters paramName clampedValue },
       true)
  | none => (e, false)

/-- Model of `GPUEffect::getParameter` (gpu_effect.cpp:39-46): current value, 0.0 if
not found. -/
def getParameter (e : GPUEffectState) (paramName : String) : ℚ :=
  match mapFind e.m_parameters paramName with
  | some v => v
  | none => 0

end GPUEffectState

/-! ## Concrete effect constructors

Each constructor mirrors the corresponding C++ constructor: base-class
initialization (`GPUEffect(name, category, nullptr)`, intensity 1, enabled)
followed by the literal `defineParameter` calls. -/

/-- Shared base-constructor state: `GPUEffect(name, category, shader)`. -/
def GPUEffect.mk0 (kind : EffectKind) (name : String) (cat : EffectCategory)
    (shader : Option Bool) : GPUEffectState :=
  { kind := kind, m_name := name, m_category := cat, m_shader := shader,
    m_parameters := [], m_parameterDefinitions := [] }

/-- Model of `ColorGradeEffect::ColorGradeEffect()` (color_grade_effect.cpp:11-19). -/
def ColorGradeEffect.init : GPUEffectState :=
  (((GPUEffect.mk0 .colorGrade "ColorGrade" .COLOR none).defineParameter
      "intensity" "uIntensity" 1 0 1).defineParameter
      "temperature" "uTemperature" (1/2) 0 1).defineParameter
      "tint" "uTint" (1/2) 0 1

/-- Model of `CurvesEffect::CurvesEffect()` (color_grade_effect.cpp:47-56). -/
def CurvesEffect.init : GPUEffectState :=
  (((((GPUEffect.mk0 .curves "Curves" .COLOR none).defineParameter
      "intensity" "uIntensity" 1 0 1).defineParameter
      "redMidtone" "uRedMidtone" (1/2) 0 1).defineParameter
      "greenMidtone" "uGreenMidtone" (1/2) 0 1).defineParameter
      "blueMidtone" "uBlueMidtone" (1/2) 0 1).defineParameter
      "luminanceMidtone" "uLuminanceMidtone" (1/2) 0 1

/-- Model of `HSLEffect::HSLEffect()` (color_grade_effect.cpp:86-94). -/
def HSLEffect.init : GPUEffectState :=
  ((((GPUEffect.mk0 .hsl "HSL" .COLOR none).defineParameter
      "intensity" "uIntensity" 1 0 1).defineParameter
      "hue" "uHue" (1/2) 0 1).defineParameter
      "saturation" "uSaturation" (1/2) 0 1).defineParameter
      "lightness" "uLightness" (1/2) 0 1

/-- Model of `GaussianBlurEffect::GaussianBlurEffect()` (blur_effect.cpp:10-16). -/
def GaussianBlurEffect.init : GPUEffectState :=
  ((GPUEffect.mk0 .gaussianBlur "GaussianBlur" .BLUR none).defineParameter
      "intensity" "uIntensity" 1 0 1).defineParameter
      "radius" "uRadius" 5 (1/2) 50

/-- Model of `VignetteEffect::VignetteEffect()` (blur_effect.cpp:36-43). -/
def VignetteEffect.init : GPUEffectState :=
  (((GPUEffect.mk0 .vignette "Vignette" .LIGHT none).defineParameter
      "intensity" "uIntensity" (1/2) 0 1).defineParameter
      "radius" "uRadius" (1/2) (1/5) 1).defineParameter
      "softness" "uSoftness" (3/10) 0 1

/-- Model of `GlowEffect::GlowEffect()` (blur_effect.cpp:61-68). -/
def GlowEffect.init : GPUEffectState :=
  (((GPUEffect.mk0 .glow "Glow" .LIGHT none).defineParameter
      "intensity" "uIntensity" (1/2) 0 1).defineParameter
      "threshold" "uThreshold" (1/2) 0 1).defineParameter
      "spread" "uSpread" (3/10) 0 1

/-- Model of `ChromaticAberrationEffect::ChromaticAberrationEffect()`
(distortion_effect.cpp:12-19). -/
def ChromaticAberrationEffect.init : GPUEffectState :=
  (((GPUEffect.mk0 .chromaticAberration "ChromaticAberration" .DISTORTION
      none).defineParameter
      "intensity" "uIntensity" (1/2) 0 1).defineParameter
      "amount" "uAmount" (3/10) 0 1).defineParameter
      "direction" "uDirection" 0 0 360

/-- Model of `GlitchEffect::GlitchEffect()` (distortion_effect.cpp:42-49). -/
def GlitchEffect.init : GPUEffectState :=
  (((GPUEffect.mk0 .glitch "Glitch" .DISTORTION none).defineParameter
      "intensity" "uIntensity" (1/2) 0 1).defineParameter
      "amount" "uAmount" (3/10) 0 1).defineParameter
      "frequency" "uFrequency" (1/2) 0 1

/-- Model of `PosterizeEffect::PosterizeEffect()` (distortion_effect.cpp:65-71). -/
def PosterizeEffect.init : GPUEffectState :=
  ((GPUEffect.mk0 .posterize "Posterize" .ARTISTIC none).defineParameter
      "intensity" "uIntensity" 1 0 1).defineParameter
      "levels" "uLevels" 128 2 256

/-- Model of `InvertEffect::InvertEffect()` (distortion_effect.cpp:86-91). -/
def InvertEffect.init : GPUEffectState :=
  (GPUEffect.mk0 .invert "Invert" .ARTISTIC none).defineParameter
      "intensity" "uIntensity" 1 0 1

/-- Model of `GrayscaleEffect::GrayscaleEffect()` (distortion_effect.cpp:104-109). -/
def GrayscaleEffect.init : GPUEffectState :=
  (GPUEffect.mk0 .grayscale "Grayscale" .ARTISTIC none).defineParameter
      "intensity" "uIntensity" 1 0 1

/-! ## GL command trace

Each GL call issued by `GPUEffect::apply` and the custom-uniform hooks is
recorded as one command; the trace lets us talk about *which* uniform value is
in effect at the draw call. -/

inductive GLCmd where
  | useProgram
  | bindFramebuffer (fbo : Nat)
  | viewport (width height : Int)
  | activeTexture (unit : Nat)
  | bindTexture (tex : Nat)
  | setUniformI (uname : String) (v : Int)
  | setUniformF (uname : String) (v : ℚ)
  | setUniformV2 (uname : String) (x y : ℚ)
  | bindQuadVAO
  | drawQuad
  | unbindVAO
  | unbindFramebuffer
  | unbindTexture
deriving Repr, DecidableEq

/-- The frame content produced by draw calls, as a free term algebra:
`applied e f` is the full-screen-quad render of effect `e` over source
frame `f`; `uninit t` is the undefined content of a never-written texture
`t`. -/
inductive Frame where
  | uninit (textureId : Nat)
  | applied (effect : GPUEffectState) (input : Frame)
deriving Repr, DecidableEq

/-- GL server state: a fresh-id counter plus the live framebuffer
(fbo ↦ color-attachment texture), texture and renderbuffer objects, and the
content of each written texture. -/
structure GLState where
  nextId : Nat
  framebuffers : List (Nat × Nat)
  textures : List Nat
  renderbuffers : List Nat
  content : List (Nat × Frame)
deriving Repr, DecidableEq

/-- Content of a texture (never-written textures read as `Frame.uninit`). -/
def GLState.contentOf (s : GLState) (tex : Nat) : Frame :=
  match natFind s.content tex with
  | some f => f
  | none => Frame.uninit tex

/-! ## OpenGLContext framebuffer primitives (opengl_context.cpp) -/

namespace OpenGLContext

/-- Model of `OpenGLContext::createFramebuffer` (opengl_context.cpp:257-296): generate
a framebuffer, a color texture (attached as COLOR_ATTACHMENT0) and a depth
renderbuffer; check completeness; on an incomplete status delete all three
and return 0.  Per the GL ES 3.0 specification the framebuffer is complete
iff both attachment dimensions are positive (zero-sized attachments are
attachment-incomplete); `glGen*` never returns 0. -/
def createFramebuffer (s : GLState) (width height : Int) : GLState × Nat :=
  let fbo := s.nextId + 1
  let colorTexture := s.nextId + 2
  let depthRenderBuffer := s.nextId + 3
  let s1 : GLState := { s with
    nextId := s.nextId + 3
    framebuffers := (fbo, colorTexture) :: s.framebuffers
    textures := colorTexture :: s.textures
    renderbuffers := depthRenderBuffer :: s.renderbuffers }
  if 0 < width ∧ 0 < height then (s1, fbo)
  else
    ({ s1 with
       framebuffers := natErase s1.framebuffers fbo
       textures := s1.textures.erase colorTexture
       renderbuffers := s1.renderbuffers.erase depthRenderBuffer }, 0)

/-- Model of `OpenGLContext::deleteFramebuffer` (opengl_context.cpp:298-303): deletes
the framebuffer object only (`glDeleteFramebuffers`); the color texture and
depth renderbuffer are not touched. -/
def deleteFramebuffer (s : GLState) (fbo : Nat) : GLState :=
  if fbo ≠ 0 then { s with framebuffers := natErase s.framebuffers fbo } else s

/-- Model of `OpenGLContext::getFramebufferTexture` (opengl_context.cpp:315-322):
query COLOR_ATTACHMENT0's object name. -/
def getFramebufferTexture (s : GLState) (fbo : Nat) : Nat :=
  match natFind s.framebuffers fbo with
  | some tex => tex
  | none => 0

end OpenGLContext

/-! ## Custom-uniform hooks (virtual `applyCustomUniforms` overrides) -/

open GPUEffectState in
/-- Virtual dispatch of `applyCustomUniforms(inputTexture, width, height)`:
the override selected by the object's dynamic type, each transcribed from its
source.  `glm::cos`/`glm::sin` are abstracted as `cosQ`/`sinQ`; the float
literals `3.14159f` and `0.02f` are carried as the rationals they denote. -/
def GPUEffect.applyCustomUniforms (cosQ sinQ : ℚ → ℚ) (e : GPUEffectState)
    (inputTexture : Nat) (width height : Int) : List GLCmd :=
  match e.kind with
  | .base => []
  | .colorGrade =>
      -- color_grade_effect.cpp:30-43
      if e.m_shader = none then [] else
      (if e.m_lutTexture ≠ 0 then
        [.activeTexture 1, .bindTexture e.m_lutTexture, .setUniformI "uLUT" 1]
       else []) ++
      [.setUniformF "uTemperature" (e.getParameter "temperature"),
       .setUniformF "uTint" (e.getParameter "tint")]
  | .curves =>
      -- color_grade_effect.cpp:67-82
      if e.m_shader = none then [] else
      (if e.m_curveTexture ≠ 0 then
        [.activeTexture 1, .bindTexture e.m_curveTexture,
         .setUniformI "uCurveTexture" 1]
       else []) ++
      [.setUniformF "uRedMidtone" (e.getParameter "redMidtone"),
       .setUniformF "uGreenMidtone" (e.getParameter "greenMidtone"),
       .setUniformF "uBlueMidtone" (e.getParameter "blueMidtone"),
       .setUniformF "uLuminanceMidtone" (e.getParameter "luminanceMidtone")]
  | .hsl =>
      -- color_grade_effect.cpp:100-116
      if e.m_shader = none then [] else
      let hueParam := e.getParameter "hue"
      let saturationParam := e.getParameter "saturation"
      let lightnessParam := e.getParameter "lightness"
      let hue := (hueParam * 2 - 1) * 180
      let saturation := saturationParam * 2 - 1
      let lightness := lightnessParam * 2 - 1
      [.setUniformF "uHue" hue, .setUniformF "uSaturation" saturation,
       .setUniformF "uLightness" lightness]
  | .gaussianBlur =>
      -- blur_effect.cpp:22-32 (texel size 1/width, 1/height)
      if e.m_shader = none then [] else
      [.setUniformV2 "uTexelSize" (1 / (width : ℚ)) (1 / (height : ℚ)),
       .setUniformF "uRadius" (e.getParameter "radius")]
  | .vignette =>
      -- blur_effect.cpp:49-57: writes uIntensity = m_intensity * softness
      if e.m_shader = none then [] else
      [.setUniformF "uRadius" (e.getParameter "radius"),
       .setUniformF "uIntensity" (e.m_intensity * e.getParameter "softness")]
  | .glow =>
      -- blur_effect.cpp:74-82: writes uIntensity = m_intensity * (1 + spread*2)
      if e.m_shader = none then [] else
      [.setUniformF "uThreshold" (e.getParameter "threshold"),
       .setUniformF "uIntensity"
         (e.m_intensity * (1 + e.getParameter "spread" * 2))]
  | .chromaticAberration =>
      -- distortion_effect.cpp:25-38
      if e.m_shader = none then [] else
      let amount := e.getParameter "amount"
      let direction := e.getParameter "direction" * (314159/100000) / 180
      [.setUniformV2 "uOffset" (cosQ direction * amount * (2/100))
                               (sinQ direction * amount * (2/100))]
  | .glitch =>
      -- distortion_effect.cpp:55-61
      if e.m_shader = none then [] else
      [.setUniformF "uAmount" (e.getParameter "amount"),
       .setUniformF "uFrequency" (e.getParameter "frequency"),
       .setUniformF "uTime" e.m_time]
  | .posterize =>
      -- distortion_effect.cpp:77-82
      if e.m_shader = none then [] else
      [.setUniformF "uLevels" (e.getParameter "levels")]
  | .invert => []
  | .grayscale => []

/-- Model of `GPUEffect::apply` (gpu_effect.cpp:66-111).  Returns the GL state after
the call, the boolean result, and the trace of GL commands issued.  The
availability check precedes the enabled check, exactly as in the source.  The
draw call writes `Frame.applied e (content of input)` into the output
framebuffer's color attachment. -/
def GPUEffect.apply (cosQ sinQ : ℚ → ℚ) (e : GPUEffectState)
    (inputTexture outputFramebuffer : Nat) (width height : Int)
    (s : GLState) : GLState × Bool × List GLCmd :=
  if e.isAvailable = false then (s, false, [])
  else if e.m_enabled = false then (s, true, [])
  else
    let pre : List GLCmd :=
      [.useProgram, .bindFramebuffer outputFramebuffer,
       .viewport width height, .activeTexture 0, .bindTexture inputTexture,
       .setUniformI "uTexture" 0, .bindQuadVAO]
    let hook := GPUEffect.applyCustomUniforms cosQ sinQ e inputTexture
      width height
    let post : List GLCmd :=
      [.setUniformF "uIntensity" e.m_intensity, .drawQuad,
       .unbindVAO, .unbindFramebuffer, .unbindTexture]
    let s1 := match natFind s.framebuffers outputFramebuffer with
      | some outTex =>
          let newFrame := Frame.applied e (s.contentOf inputTexture)
          { s with content := natInsert s.content outTex newFrame }
      | none => s
    (s1, true, pre ++ hook ++ post)

/-- The value a scalar uniform holds when the first draw call of a trace is
issued (the last `setUniformF` for that name before the first `drawQuad`);
`none` when the trace issues no draw. -/
def uniformAtDraw (cmds : List GLCmd) (uname : String) (acc : Option ℚ) :
    Option ℚ :=
  match cmds with
  | [] => none
  | GLCmd.drawQuad :: _ => acc
  | GLCmd.setUniformF n v :: rest =>
      uniformAtDraw rest uname (if n = uname then some v else acc)
  | _ :: rest => uniformAtDraw rest uname acc

/-- The last scalar value a command list writes to uniform `uname`. -/
def lastUniformF (cmds : List GLCmd) (uname : String) : Option ℚ :=
  match cmds with
  | [] => none
  | GLCmd.setUniformF n v :: rest =>
      match lastUniformF rest uname with
      | some w => some w
      | none => if n = uname then some v else none
  | _ :: rest => lastUniformF rest uname

/-- The last vec2 value a command list writes to uniform `uname`. -/
def lastUniformV2 (cmds : List GLCmd) (uname : String) : Option (ℚ × ℚ) :=
  match cmds with
  | [] => none
  | GLCmd.setUniformV2 n x y :: rest =>
      match lastUniformV2 rest uname with
      | some w => some w
      | none => if n = uname then some (x, y) else none
  | _ :: rest => lastUniformV2 rest uname

/-! ## GPURenderer (gpu_renderer.h / gpu_renderer.cpp) -/

/-- Model of `struct RenderConfig` (gpu_renderer.h:19-28). -/
structure RenderConfig where
  renderWidth : Int := 1920
  renderHeight : Int := 1080
  outputWidth : Int := 1920
  outputHeight : Int := 1080
  useMultisampling : Bool := true
  sampleCount : Int := 4
  enableCache : Bool := true
  enableProfiling : Bool := false
deriving Repr, DecidableEq

/-- The `GPURenderer` members the effect pipeline reads and writes.
`contextInitialized` models `m_context && m_context->isInitialized()`
(gpu_renderer.h:94). -/
structure GPURendererState where
  m_effects : List (String × GPUEffectState)
  m_effectOrder : List String
  m_config : RenderConfig
  contextInitialized : Bool
deriving Repr, DecidableEq

/-- The renderer-owned GL-side state a render call threads through:
the GL server state plus `m_intermediateFramebuffers`. -/
structure RenderSession where
  gl : GLState
  intermediates : List Nat
deriving Repr, DecidableEq

/-- One call of `effect->apply(...)` made by `applyEffectChain`, recorded for
observation: which effect, into which framebuffer, and whether it
succeeded. -/
structure ApplyEvent where
  effectName : String
  fbo : Nat
  ok : Bool
deriving Repr, DecidableEq

namespace GPURenderer

/-- Model of `GPURenderer::addEffect` (gpu_renderer.cpp:58-76).  The guard on line 59
is transcribed literally: `if (!effect || !effect->getName().empty())
return false;` — note it rejects every effect whose name is *not* empty. -/
def addEffect (r : GPURendererState) (effect : Option GPUEffectState) :
    GPURendererState × Bool :=
  match effect with
  | none => (r, false)
  | some e =>
      if e.m_name.isEmpty = false then (r, false)
      else
        let name := e.m_name
        if (mapFind r.m_effects name).isSome then (r, false)
        else
          ({ r with m_effects := mapInsert r.m_effects name e
                    m_effectOrder := r.m_effectOrder ++ [name] }, true)

/-- Model of `GPURenderer::removeEffect` (gpu_renderer.cpp:78-94): erase from the map,
then erase the first occurrence in the order vector. -/
def removeEffect (r : GPURendererState) (effectName : String) :
    GPURendererState × Bool :=
  match mapFind r.m_effects effectName with
  | none => (r, false)
  | some _ =>
      ({ r with m_effects := mapErase r.m_effects effectName
                m_effectOrder := r.m_effectOrder.erase effectName }, true)

/-- Model of `GPURenderer::getEffectNames` (gpu_renderer.cpp:109-111). -/
def getEffectNames (r : GPURendererState) : List String := r.m_effectOrder

/-- Model of `GPURenderer::createIntermediateFramebuffer` (gpu_renderer.cpp:261-271):
create at the configured render resolution; on success push into
`m_intermediateFramebuffers`. -/
def createIntermediateFramebuffer (cfg : RenderConfig) (st : RenderSession) :
    RenderSession × Nat :=
  let p := OpenGLContext.createFramebuffer st.gl cfg.renderWidth
    cfg.renderHeight
  if p.2 ≠ 0 then
    ({ gl := p.1, intermediates := st.intermediates ++ [p.2] }, p.2)
  else ({ st with gl := p.1 }, p.2)

/-- The loop of `GPURenderer::applyEffectChain` (gpu_renderer.cpp:230-259),
walking the rest of `m_effectOrder`.  A name missing from the map is skipped
(unreachable under the `addEffect`/`removeEffect` invariant, where
`m_effects[effectName]` cannot default-construct).  Returns the session, the
final `currentTexture`, and the list of `apply` calls made. -/
def applyEffectChainGo (cosQ sinQ : ℚ → ℚ) (cfg : RenderConfig)
    (effects : List (String × GPUEffectState)) (order : List String)
    (st : RenderSession) (currentTexture : Nat) :
    RenderSession × Nat × List ApplyEvent :=
  match order with
  | [] => (st, currentTexture, [])
  | effectName :: rest =>
      match mapFind effects effectName with
      | none => applyEffectChainGo cosQ sinQ cfg effects rest st currentTexture
      | some effect =>
          if effect.m_enabled = false then
            applyEffectChainGo cosQ sinQ cfg effects rest st currentTexture
          else
            let cr := createIntermediateFramebuffer cfg st
            if cr.2 = 0 then
              applyEffectChainGo cosQ sinQ cfg effects rest cr.1 currentTexture
            else
              let ap := GPUEffect.apply cosQ sinQ effect currentTexture cr.2
                cfg.renderWidth cfg.renderHeight cr.1.gl
              if ap.2.1 = false then
                let st2 : RenderSession :=
                  { cr.1 with gl := OpenGLContext.deleteFramebuffer ap.1 cr.2 }
                let res := applyEffectChainGo cosQ sinQ cfg effects rest st2
                  currentTexture
                (res.1, res.2.1, ⟨effectName, cr.2, false⟩ :: res.2.2)
              else
                let nextTexture := OpenGLContext.getFramebufferTexture ap.1 cr.2
                let st2 : RenderSession := { cr.1 with gl := ap.1 }
                let res := applyEffectChainGo cosQ sinQ cfg effects rest st2
                  nextTexture
                (res.1, res.2.1, ⟨effectName, cr.2, true⟩ :: res.2.2)

/-- Model of `GPURenderer::applyEffectChain` (gpu_renderer.cpp:230-259). -/
def applyEffectChain (cosQ sinQ : ℚ → ℚ) (r : GPURendererState)
    (st : RenderSession) (inputTexture : Nat) :
    RenderSession × Nat × List ApplyEvent :=
  applyEffectChainGo cosQ sinQ r.m_config r.m_effects r.m_effectOrder st
    inputTexture

/-- Renderer-level context commands issued by `renderFrame`
(`renderFrame` issues no draw or blit of any texture — the final
presentation in gpu_renderer.cpp:156-157 is only a comment). -/
inductive RCmd where
  | makeCurrent
  | bindOutputFramebuffer (fbo : Nat)
  | clearScreen
  | releaseContext
deriving Repr, DecidableEq

/-- Model of `GPURenderer::renderFrame` (gpu_renderer.cpp:132-167): initialization
check, make current, run the chain (its output texture is stored in a local
that is never read), then for a nonzero caller framebuffer bind it and clear
it, release the context and return true.  `makeCurrent` is modelled as
succeeding; the profiling branches mutate no observable state
(`beginProfiling` is empty, `endProfiling` only updates statistics). -/
def renderFrame (cosQ sinQ : ℚ → ℚ) (r : GPURendererState)
    (st : RenderSession) (inputTexture outputFramebuffer : Nat) :
    RenderSession × Bool × List RCmd :=
  if r.contextInitialized = false then (st, false, [])
  else
    let ch := applyEffectChain cosQ sinQ r st inputTexture
    let trace : List RCmd :=
      if outputFramebuffer ≠ 0 then
        [.makeCurrent, .bindOutputFramebuffer outputFramebuffer,
         .clearScreen, .releaseContext]
      else [.makeCurrent, .releaseContext]
    (ch.1, true, trace)

/-- Model of `GPURenderer::renderToTexture` (gpu_renderer.cpp:169-197): initialization
check, make current, create an intermediate framebuffer, run the chain
(ignoring its result), and return the color attachment of the framebuffer
created *before* the chain ran. -/
def renderToTexture (cosQ sinQ : ℚ → ℚ) (r : GPURendererState)
    (st : RenderSession) (inputTexture : Nat) :
    RenderSession × Nat × List ApplyEvent :=
  if r.contextInitialized = false then (st, 0, [])
  else
    let cr := createIntermediateFramebuffer r.m_config st
    if cr.2 = 0 then (cr.1, 0, [])
    else
      let ch := applyEffectChain cosQ sinQ r cr.1 inputTexture
      let outputTexture := OpenGLContext.getFramebufferTexture ch.1.gl cr.2
      (ch.1, outputTexture, ch.2.2)

end GPURenderer

/-- The effects of a renderer that `applyEffectChain` actually applies
successfully: those in `m_effectOrder` (insertion order) that are present in
the map, enabled, and whose shader compiled. -/
def successfulEffects (r : GPURendererState) : List GPUEffectState :=
  (r.m_effectOrder.filterMap (fun n => mapFind r.m_effects n)).filter
    (fun e => e.m_enabled && e.isAvailable)

/-- GL states whose tracked framebuffer names are all ≤ `nextId` (true of
every state reachable from context initialization, where names come from the
fresh-id counter). -/
def GLState.fbWF (s : GLState) : Prop :=
  ∀ k t, natFind s.framebuffers k = some t → k ≤ s.nextId

/-- Canonical session state after one chain stage whose `apply` failed:
three fresh ids were consumed; the framebuffer was deleted again, but the
color texture, depth renderbuffer and `m_intermediateFramebuffers` entry
remain (exactly the leak the source exhibits). -/
def chainFailState (st : RenderSession) : RenderSession :=
  { gl := { nextId := st.gl.nextId + 3
            framebuffers := st.gl.framebuffers
            textures := (st.gl.nextId + 2) :: st.gl.textures
            renderbuffers := (st.gl.nextId + 3) :: st.gl.renderbuffers
            content := st.gl.content }
    intermediates := st.intermediates ++ [st.gl.nextId + 1] }

/-- Canonical session state after one successful chain stage over effect
`e` with input texture `cur`: a fresh framebuffer `nextId+1` with color
attachment `nextId+2` holding `Frame.applied e` of the input's content. -/
def chainOkState (st : RenderSession) (cur : Nat) (e : GPUEffectState) :
    RenderSession :=
  { gl := { nextId := st.gl.nextId + 3
            framebuffers :=
              (st.gl.nextId + 1, st.gl.nextId + 2) :: st.gl.framebuffers
            textures := (st.gl.nextId + 2) :: st.gl.textures
            renderbuffers := (st.gl.nextId + 3) :: st.gl.renderbuffers
            content := natInsert st.gl.content (st.gl.nextId + 2)
              (Frame.applied e (st.gl.contentOf cur)) }
    intermediates := st.intermediates ++ [st.gl.nextId + 1] }

/-- Canonical session state after `renderToTexture`'s up-front
`createIntermediateFramebuffer` (before the chain runs): a fresh framebuffer
`nextId+1` whose color attachment `nextId+2` has never been drawn into. -/
def chainPreState (st : RenderSession) : RenderSession :=
  { gl := { nextId := st.gl.nextId + 3
            framebuffers :=
              (st.gl.nextId + 1, st.gl.nextId + 2) :: st.gl.framebuffers
            textures := (st.gl.nextId + 2) :: st.gl.textures
            renderbuffers := (st.gl.nextId + 3) :: st.gl.renderbuffers
            content := st.gl.content }
    intermediates := st.intermediates ++ [st.gl.nextId + 1] }

/-! ## Concrete fixtures used by witnesses and counterexamples -/

/-- Trivial stand-in for `glm::cos` (the claims never evaluate it). -/
def cos0 : ℚ → ℚ := fun _ => 0

/-- Trivial stand-in for `glm::sin`. -/
def sin0 : ℚ → ℚ := fun _ => 0

/-- Fresh GL server state right after context creation. -/
def gl0 : GLState :=
  { nextId := 0, framebuffers := [], textures := [], renderbuffers := [],
    content := [] }

/-- Fresh render session. -/
def session0 : RenderSession := { gl := gl0, intermediates := [] }

/-- A 64×64 offscreen configuration. -/
def cfg64 : RenderConfig :=
  { renderWidth := 64, renderHeight := 64, outputWidth := 64,
    outputHeight := 64 }

/-- An initialized renderer with an empty chain. -/
def renderer0 : GPURendererState :=
  { m_effects := [], m_effectOrder := [], m_config := cfg64,
    contextInitialized := true }

/-- A non-null effect named "A" with a compiled shader. -/
def effectA : GPUEffectState :=
  { GrayscaleEffect.init with m_name := "A", m_shader := some true }

/-- A grayscale effect whose shader compiled. -/
def grayscaleReady : GPUEffectState :=
  { GrayscaleEffect.init with m_shader := some true }

/-- A disabled grayscale effect whose shader compiled. -/
def grayscaleDisabledReady : GPUEffectState :=
  { GrayscaleEffect.init with m_shader := some true, m_enabled := false }

/-- A disabled grayscale effect whose shader never compiled
(`m_shader` null, as built by the constructor). -/
def grayscaleDisabledNoShader : GPUEffectState :=
  { GrayscaleEffect.init with m_enabled := false }

/-- A vignette effect whose shader compiled. -/
def vignetteReady : GPUEffectState :=
  { VignetteEffect.init with m_shader := some true }

/-- A color-grade effect whose shader compiled. -/
def colorGradeReady : GPUEffectState :=
  { ColorGradeEffect.init with m_shader := some true }

/-- An HSL effect whose shader compiled. -/
def hslReady : GPUEffectState :=
  { HSLEffect.init with m_shader := some true }

/-- A chromatic-aberration effect whose shader compiled. -/
def chromaReady : GPUEffectState :=
  { ChromaticAberrationEffect.init with m_shader := some true }

/-- An initialized renderer with one working grayscale effect. -/
def rendererG : GPURendererState :=
  { m_effects := [("Grayscale", grayscaleReady)],
    m_effectOrder := ["Grayscale"], m_config := cfg64,
    contextInitialized := true }

/-- The HSL hue parameter's definition, as registered by the constructor. -/
def hueParam : EffectParameter := ⟨"hue", "uHue", 1/2, 0, 1, "float"⟩

/-- A disabled grayscale effect named "B" with a compiled shader. -/
def effectB : GPUEffectState :=
  { GrayscaleEffect.init with
      m_name := "B", m_shader := some true, m_enabled := false }

/-- An enabled grayscale effect named "C" whose shader never compiled. -/
def effectC : GPUEffectState := { GrayscaleEffect.init with m_name := "C" }

/-- An initialized renderer with a working effect "A", a disabled effect
"B" and an unavailable effect "C". -/
def rendererMix : GPURendererState :=
  { m_effects := [("A", effectA), ("B", effectB), ("C", effectC)],
    m_effectOrder := ["A", "B", "C"], m_config := cfg64,
    contextInitialized := true }

/-! ## Map lemmas -/

theorem mapFind_mapInsert_self {α : Type} (m : List (String × α)) (k : String)
    (v : α) : mapFind (mapInsert m k v) k = some v := by
  induction m with
  | nil => simp [mapFind, mapInsert]
  | cons hd tl ih =>
      obtain ⟨k', v'⟩ := hd
      by_cases h : k' = k
      · simp [mapFind, mapInsert, h]
      · simp [mapFind, mapInsert, h, ih]

theorem natFind_natInsert_self {α : Type} (m : List (Nat × α)) (k : Nat)
    (v : α) : natFind (natInsert m k v) k = some v := by
  induction m with
  | nil => simp [natFind, natInsert]
  | cons hd tl ih =>
      obtain ⟨k', v'⟩ := hd
      by_cases h : k' = k
      · simp [natFind, natInsert, h]
      · simp [natFind, natInsert, h, ih]

theorem natFind_natInsert_ne {α : Type} (m : List (Nat × α)) (k k' : Nat)
    (v : α) (h : k ≠ k') : natFind (natInsert m k v) k' = natFind m k' := by
  induction m with
  | nil => simp [natFind, natInsert, h]
  | cons hd tl ih =>
      obtain ⟨k0, v0⟩ := hd
      by_cases h0 : k0 = k
      · subst h0
        simp [natFind, natInsert, h]
      · simp only [natInsert, if_neg h0]
        by_cases h1 : k0 = k'
        · simp [natFind, h1]
        · simp [natFind, h1, ih]

theorem natFind_natErase_ne {α : Type} (m : List (Nat × α)) (k k' : Nat)
    (h : k ≠ k') : natFind (natErase m k) k' = natFind m k' := by
  induction m with
  | nil => simp [natErase]
  | cons hd tl ih =>
      obtain ⟨k0, v0⟩ := hd
      by_cases h0 : k0 = k
      · subst h0
        simp [natFind, natErase, h]
      · simp only [natErase, if_neg h0]
        by_cases h1 : k0 = k'
        · simp [natFind, h1]
        · simp [natFind, h1, ih]

/-! ## Claim C8: setParameter stores the clamped value -/

/-- C8: for every `GPUEffect`, every value `v` and every defined parameter
`p`, `setParameter(p.name, v)` returns true and afterwards
`getParameter(p.name)` equals `clamp(v, p.min, p.max)`. -/
theorem setParameter_then_getParameter_clamps (e : GPUEffectState)
    (p : EffectParameter) (v : ℚ)
    (hdef : mapFind e.m_parameterDefinitions p.name = some p) :
    (e.setParameter p.name v).2 = true ∧
    (e.setParameter p.name v).1.getParameter p.name
      = GPUEffectState.clampQ v p.minValue p.maxValue := by
  simp only [GPUEffectState.setParameter, hdef]
  refine ⟨trivial, ?_⟩
  simp [GPUEffectState.getParameter, mapFind_mapInsert_self]

/-- Witness for C8: setting the HSL hue parameter to 7 stores clamp(7,0,1)=1. -/
theorem setParameter_then_getParameter_clamps_witness :
    mapFind HSLEffect.init.m_parameterDefinitions hueParam.name
      = some hueParam ∧
    ((HSLEffect.init.setParameter hueParam.name 7).2 = true ∧
     (HSLEffect.init.setParameter hueParam.name 7).1.getParameter hueParam.name
       = GPUEffectState.clampQ 7 hueParam.minValue hueParam.maxValue) :=
  ⟨by rfl,
   setParameter_then_getParameter_clamps HSLEffect.init hueParam 7 (by rfl)⟩

/-! ## Claim C9: setParameter on an unknown name is a no-op -/

/-- C9: for every `GPUEffect` and every name that is not a defined parameter,
`setParameter` returns false and the whole object — in particular the entire
parameter map — is unchanged. -/
theorem setParameter_unknown_is_noop (e : GPUEffectState)
    (paramName : String) (v : ℚ)
    (hundef : mapFind e.m_parameterDefinitions paramName = none) :
    (e.setParameter paramName v).2 = false ∧
    (e.setParameter paramName v).1 = e ∧
    ∀ q : String,
      (e.setParameter paramName v).1.getParameter q = e.getParameter q := by
  simp [GPUEffectState.setParameter, hundef]

/-- Witness for C9: an undefined knob name on the HSL effect. -/
theorem setParameter_unknown_is_noop_witness :
    mapFind HSLEffect.init.m_parameterDefinitions "bogus" = none ∧
    ((HSLEffect.init.setParameter "bogus" 3).2 = false ∧
     (HSLEffect.init.setParameter "bogus" 3).1 = HSLEffect.init ∧
     ∀ q : String, (HSLEffect.init.setParameter "bogus" 3).1.getParameter q
       = HSLEffect.init.getParameter q) :=
  ⟨by rfl, setParameter_unknown_is_noop HSLEffect.init "bogus" 3 (by rfl)⟩

/-! ## Claim C1: addEffect rejects every non-empty name (inverted guard) -/

/-- C1 (code-bug evidence): `addEffect` on a fresh renderer with a non-null
effect named "A" returns false and registers nothing — the guard
`!effect->getName().empty()` (gpu_renderer.cpp:59) rejects every effect
whose name is non-empty, so the add/remove ordering protocol of the claim is
unreachable. -/
theorem addEffect_rejects_every_nonempty_name :
    (GPURenderer.addEffect renderer0 (some effectA)).2 = false ∧
    (GPURenderer.addEffect renderer0 (some effectA)).1 = renderer0 ∧
    GPURenderer.getEffectNames
      (GPURenderer.addEffect renderer0 (some effectA)).1 = [] := by
  decide

/-! ## Claim C2: renderFrame never presents the chain output -/

/-- C2 (code-bug evidence): on an initialized renderer with a working
grayscale effect and caller framebuffer 1, `renderFrame` returns true but
its context-command trace is exactly make-current, bind, clear, release —
no command draws or blits the chain's output texture into the caller's
framebuffer (gpu_renderer.cpp:156-157 is only a comment). -/
theorem renderFrame_clears_but_never_presents :
    (GPURenderer.renderFrame cos0 sin0 rendererG session0 7 1).2.1 = true ∧
    (GPURenderer.renderFrame cos0 sin0 rendererG session0 7 1).2.2
      = [GPURenderer.RCmd.makeCurrent,
         GPURenderer.RCmd.bindOutputFramebuffer 1,
         GPURenderer.RCmd.clearScreen,
         GPURenderer.RCmd.releaseContext] := by
  decide

/-! ## Claim C6: availability is checked before the disabled check -/

/-- C6 (counterexample): a disabled effect whose shader never compiled
returns *false* from `apply` — the claim's "returns true ... regardless of
whether the shader compiled" fails, because gpu_effect.cpp:66-74 tests
`isAvailable()` before `m_enabled`. -/
theorem apply_disabled_without_shader_returns_false :
    grayscaleDisabledNoShader.m_enabled = false ∧
    GPUEffect.apply cos0 sin0 grayscaleDisabledNoShader 1 2 64 64 gl0
      = (gl0, false, []) := by
  decide

/-- C6 (amended): `apply` returns false and does nothing whenever the shader
never compiled (regardless of the enabled flag); a *disabled* effect whose
shader did compile returns true and performs no rendering (no GL commands,
no state change). -/
theorem apply_unavailable_false_disabled_noop (cosQ sinQ : ℚ → ℚ)
    (e : GPUEffectState) (it fb : Nat) (w ht : Int) (s : GLState) :
    (e.isAvailable = false →
      GPUEffect.apply cosQ sinQ e it fb w ht s = (s, false, [])) ∧
    (e.isAvailable = true → e.m_enabled = false →
      GPUEffect.apply cosQ sinQ e it fb w ht s = (s, true, [])) := by
  constructor
  · intro hav
    simp [GPUEffect.apply, hav]
  · intro hav hen
    simp [GPUEffect.apply, hav, hen]

/-- Witness for the amended C6, at both a disabled compiled effect and an
uncompiled one. -/
theorem apply_unavailable_false_disabled_noop_witness :
    GPUEffect.apply cos0 sin0 grayscaleDisabledReady 1 2 64 64 gl0
      = (gl0, true, []) ∧
    GPUEffect.apply cos0 sin0 grayscaleDisabledNoShader 1 2 64 64 gl0
      = (gl0, false, []) :=
  ⟨(apply_unavailable_false_disabled_noop cos0 sin0 grayscaleDisabledReady
      1 2 64 64 gl0).2 (by decide) (by decide),
   (apply_unavailable_false_disabled_noop cos0 sin0 grayscaleDisabledNoShader
      1 2 64 64 gl0).1 (by decide)⟩

/-! ## Claim C10: createFramebuffer with a zero dimension frees everything -/

/-- C10: `createFramebuffer` with width or height 0 returns the sentinel 0,
and the framebuffer object, color texture and depth renderbuffer allocated on
the way are all freed: the three GL object pools end exactly as they
started. -/
theorem createFramebuffer_zero_size_frees_all (s : GLState) (w ht : Int)
    (hzero : w = 0 ∨ ht = 0) :
    (OpenGLContext.createFramebuffer s w ht).2 = 0 ∧
    (OpenGLContext.createFramebuffer s w ht).1.framebuffers
      = s.framebuffers ∧
    (OpenGLContext.createFramebuffer s w ht).1.textures = s.textures ∧
    (OpenGLContext.createFramebuffer s w ht).1.renderbuffers
      = s.renderbuffers := by
  have hne : ¬ (0 < w ∧ 0 < ht) := by
    rcases hzero with h | h <;> omega
  simp only [OpenGLContext.createFramebuffer, if_neg hne]
  refine ⟨trivial, ?_, ?_, ?_⟩
  · simp [natErase]
  · simp
  · simp

/-! ## Step lemmas for the effect-chain loop -/

theorem apply_of_not_available (cosQ sinQ : ℚ → ℚ) (e : GPUEffectState)
    (it fb : Nat) (w ht : Int) (s : GLState)
    (hav : e.isAvailable = false) :
    GPUEffect.apply cosQ sinQ e it fb w ht s = (s, false, []) := by
  simp [GPUEffect.apply, hav]

theorem go_cons_missing (cosQ sinQ : ℚ → ℚ) (cfg : RenderConfig)
    (effects : List (String × GPUEffectState)) (name : String)
    (rest : List String) (st : RenderSession) (cur : Nat)
    (hfind : mapFind effects name = none) :
    GPURenderer.applyEffectChainGo cosQ sinQ cfg effects (name :: rest) st cur
      = GPURenderer.applyEffectChainGo cosQ sinQ cfg effects rest st cur := by
  simp [GPURenderer.applyEffectChainGo, hfind]

theorem go_cons_disabled (cosQ sinQ : ℚ → ℚ) (cfg : RenderConfig)
    (effects : List (String × GPUEffectState)) (name : String)
    (rest : List String) (st : RenderSession) (cur : Nat)
    (e : GPUEffectState) (hfind : mapFind effects name = some e)
    (hen : e.m_enabled = false) :
    GPURenderer.applyEffectChainGo cosQ sinQ cfg effects (name :: rest) st cur
      = GPURenderer.applyEffectChainGo cosQ sinQ cfg effects rest st cur := by
  simp [GPURenderer.applyEffectChainGo, hfind, hen]

theorem go_cons_nonpos (cosQ sinQ : ℚ → ℚ) (cfg : RenderConfig)
    (effects : List (String × GPUEffectState)) (name : String)
    (rest : List String) (st : RenderSession) (cur : Nat)
    (e : GPUEffectState) (hfind : mapFind effects name = some e)
    (hen : e.m_enabled = true)
    (hc : ¬ (0 < cfg.renderWidth ∧ 0 < cfg.renderHeight)) :
    GPURenderer.applyEffectChainGo cosQ sinQ cfg effects (name :: rest) st cur
      = GPURenderer.applyEffectChainGo cosQ sinQ cfg effects rest
          { st with gl := { st.gl with nextId := st.gl.nextId + 3 } } cur := by
  simp [GPURenderer.applyEffectChainGo, hfind, hen,
    GPURenderer.createIntermediateFramebuffer,
    OpenGLContext.createFramebuffer, if_neg hc, natErase]

theorem go_cons_fail (cosQ sinQ : ℚ → ℚ) (cfg : RenderConfig)
    (effects : List (String × GPUEffectState)) (name : String)
    (rest : List String) (st : RenderSession) (cur : Nat)
    (e : GPUEffectState) (hfind : mapFind effects name = some e)
    (hen : e.m_enabled = true)
    (hc : 0 < cfg.renderWidth ∧ 0 < cfg.renderHeight)
    (hav : e.isAvailable = false) :
    GPURenderer.applyEffectChainGo cosQ sinQ cfg effects (name :: rest) st cur
      = ((GPURenderer.applyEffectChainGo cosQ sinQ cfg effects rest
            (chainFailState st) cur).1,
         (GPURenderer.applyEffectChainGo cosQ sinQ cfg effects rest
            (chainFailState st) cur).2.1,
         ⟨name, st.gl.nextId + 1, false⟩ ::
           (GPURenderer.applyEffectChainGo cosQ sinQ cfg effects rest
             (chainFailState st) cur).2.2) := by
  simp [GPURenderer.applyEffectChainGo, hfind, hen,
    GPURenderer.createIntermediateFramebuffer,
    OpenGLContext.createFramebuffer, if_pos hc,
    apply_of_not_available cosQ sinQ e cur (st.gl.nextId + 1)
      cfg.renderWidth cfg.renderHeight _ hav,
    OpenGLContext.deleteFramebuffer, natErase, chainFailState]

theorem go_cons_success (cosQ sinQ : ℚ → ℚ) (cfg : RenderConfig)
    (effects : List (String × GPUEffectState)) (name : String)
    (rest : List String) (st : RenderSession) (cur : Nat)
    (e : GPUEffectState) (hfind : mapFind effects name = some e)
    (hen : e.m_enabled = true)
    (hc : 0 < cfg.renderWidth ∧ 0 < cfg.renderHeight)
    (hav : e.isAvailable = true) :
    GPURenderer.applyEffectChainGo cosQ sinQ cfg effects (name :: rest) st cur
      = ((GPURenderer.applyEffectChainGo cosQ sinQ cfg effects rest
            (chainOkState st cur e) (st.gl.nextId + 2)).1,
         (GPURenderer.applyEffectChainGo cosQ sinQ cfg effects rest
            (chainOkState st cur e) (st.gl.nextId + 2)).2.1,
         ⟨name, st.gl.nextId + 1, true⟩ ::
           (GPURenderer.applyEffectChainGo cosQ sinQ cfg effects rest
             (chainOkState st cur e) (st.gl.nextId + 2)).2.2) := by
  simp [GPURenderer.applyEffectChainGo, hfind, hen,
    GPURenderer.createIntermediateFramebuffer,
    OpenGLContext.createFramebuffer, if_pos hc, GPUEffect.apply, hav,
    OpenGLContext.getFramebufferTexture, natFind, chainOkState,
    GLState.contentOf]

theorem go_cons_fail_fst (cosQ sinQ : ℚ → ℚ) (cfg : RenderConfig)
    (effects : List (String × GPUEffectState)) (name : String)
    (rest : List String) (st : RenderSession) (cur : Nat)
    (e : GPUEffectState) (hfind : mapFind effects name = some e)
    (hen : e.m_enabled = true)
    (hc : 0 < cfg.renderWidth ∧ 0 < cfg.renderHeight)
    (hav : e.isAvailable = false) :
    (GPURenderer.applyEffectChainGo cosQ sinQ cfg effects (name :: rest) st
      cur).1 = (GPURenderer.applyEffectChainGo cosQ sinQ cfg effects rest
      (chainFailState st) cur).1 := by
  rw [go_cons_fail cosQ sinQ cfg effects name rest st cur e hfind hen hc hav]

theorem go_cons_fail_res (cosQ sinQ : ℚ → ℚ) (cfg : RenderConfig)
    (effects : List (String × GPUEffectState)) (name : String)
    (rest : List String) (st : RenderSession) (cur : Nat)
    (e : GPUEffectState) (hfind : mapFind effects name = some e)
    (hen : e.m_enabled = true)
    (hc : 0 < cfg.renderWidth ∧ 0 < cfg.renderHeight)
    (hav : e.isAvailable = false) :
    (GPURenderer.applyEffectChainGo cosQ sinQ cfg effects (name :: rest) st
      cur).2.1 = (GPURenderer.applyEffectChainGo cosQ sinQ cfg effects rest
      (chainFailState st) cur).2.1 := by
  rw [go_cons_fail cosQ sinQ cfg effects name rest st cur e hfind hen hc hav]

theorem go_cons_fail_events (cosQ sinQ : ℚ → ℚ) (cfg : RenderConfig)
    (effects : List (String × GPUEffectState)) (name : String)
    (rest : List String) (st : RenderSession) (cur : Nat)
    (e : GPUEffectState) (hfind : mapFind effects name = some e)
    (hen : e.m_enabled = true)
    (hc : 0 < cfg.renderWidth ∧ 0 < cfg.renderHeight)
    (hav : e.isAvailable = false) :
    (GPURenderer.applyEffectChainGo cosQ sinQ cfg effects (name :: rest) st
      cur).2.2 = ⟨name, st.gl.nextId + 1, false⟩ ::
      (GPURenderer.applyEffectChainGo cosQ sinQ cfg effects rest
        (chainFailState st) cur).2.2 := by
  rw [go_cons_fail cosQ sinQ cfg effects name rest st cur e hfind hen hc hav]

theorem go_cons_success_fst (cosQ sinQ : ℚ → ℚ) (cfg : RenderConfig)
    (effects : List (String × GPUEffectState)) (name : String)
    (rest : List String) (st : RenderSession) (cur : Nat)
    (e : GPUEffectState) (hfind : mapFind effects name = some e)
    (hen : e.m_enabled = true)
    (hc : 0 < cfg.renderWidth ∧ 0 < cfg.renderHeight)
    (hav : e.isAvailable = true) :
    (GPURenderer.applyEffectChainGo cosQ sinQ cfg effects (name :: rest) st
      cur).1 = (GPURenderer.applyEffectChainGo cosQ sinQ cfg effects rest
      (chainOkState st cur e) (st.gl.nextId + 2)).1 := by
  rw [go_cons_success cosQ sinQ cfg effects name rest st cur e hfind hen hc
    hav]

theorem go_cons_success_res (cosQ sinQ : ℚ → ℚ) (cfg : RenderConfig)
    (effects : List (String × GPUEffectState)) (name : String)
    (rest : List String) (st : RenderSession) (cur : Nat)
    (e : GPUEffectState) (hfind : mapFind effects name = some e)
    (hen : e.m_enabled = true)
    (hc : 0 < cfg.renderWidth ∧ 0 < cfg.renderHeight)
    (hav : e.isAvailable = true) :
    (GPURenderer.applyEffectChainGo cosQ sinQ cfg effects (name :: rest) st
      cur).2.1 = (GPURenderer.applyEffectChainGo cosQ sinQ cfg effects rest
      (chainOkState st cur e) (st.gl.nextId + 2)).2.1 := by
  rw [go_cons_success cosQ sinQ cfg effects name rest st cur e hfind hen hc
    hav]

theorem go_cons_success_events (cosQ sinQ : ℚ → ℚ) (cfg : RenderConfig)
    (effects : List (String × GPUEffectState)) (name : String)
    (rest : List String) (st : RenderSession) (cur : Nat)
    (e : GPUEffectState) (hfind : mapFind effects name = some e)
    (hen : e.m_enabled = true)
    (hc : 0 < cfg.renderWidth ∧ 0 < cfg.renderHeight)
    (hav : e.isAvailable = true) :
    (GPURenderer.applyEffectChainGo cosQ sinQ cfg effects (name :: rest) st
      cur).2.2 = ⟨name, st.gl.nextId + 1, true⟩ ::
      (GPURenderer.applyEffectChainGo cosQ sinQ cfg effects rest
        (chainOkState st cur e) (st.gl.nextId + 2)).2.2 := by
  rw [go_cons_success cosQ sinQ cfg effects name rest st cur e hfind hen hc
    hav]

/-! ## Chain invariants -/

theorem go_nextId_mono (cosQ sinQ : ℚ → ℚ) (cfg : RenderConfig)
    (effects : List (String × GPUEffectState)) :
    ∀ (order : List String) (st : RenderSession) (cur : Nat),
      st.gl.nextId ≤ (GPURenderer.applyEffectChainGo cosQ sinQ cfg effects
        order st cur).1.gl.nextId := by
  intro order
  induction order with
  | nil =>
      intro st cur
      simp [GPURenderer.applyEffectChainGo]
  | cons name rest ih =>
      intro st cur
      rcases hfind : mapFind effects name with _ | e
      · rw [go_cons_missing cosQ sinQ cfg effects name rest st cur hfind]
        exact ih st cur
      · cases hen : e.m_enabled
        · rw [go_cons_disabled cosQ sinQ cfg effects name rest st cur e
            hfind hen]
          exact ih st cur
        · by_cases hc : 0 < cfg.renderWidth ∧ 0 < cfg.renderHeight
          · cases hav : e.isAvailable
            · rw [go_cons_fail_fst cosQ sinQ cfg effects name rest st cur e
                hfind hen hc hav]
              have h := ih (chainFailState st) cur
              have hn : (chainFailState st).gl.nextId
                  = st.gl.nextId + 3 := rfl
              rw [hn] at h
              omega
            · rw [go_cons_success_fst cosQ sinQ cfg effects name rest st cur
                e hfind hen hc hav]
              have h := ih (chainOkState st cur e) (st.gl.nextId + 2)
              have hn : (chainOkState st cur e).gl.nextId
                  = st.gl.nextId + 3 := rfl
              rw [hn] at h
              omega
          · rw [go_cons_nonpos cosQ sinQ cfg effects name rest st cur e
              hfind hen hc]
            have h := ih { st with gl := { st.gl with
              nextId := st.gl.nextId + 3 } } cur
            have hn : ({ st with gl := { st.gl with
                nextId := st.gl.nextId + 3 } } : RenderSession).gl.nextId
                = st.gl.nextId + 3 := rfl
            rw [hn] at h
            omega

theorem go_fb_pres (cosQ sinQ : ℚ → ℚ) (cfg : RenderConfig)
    (effects : List (String × GPUEffectState)) :
    ∀ (order : List String) (st : RenderSession) (cur : Nat) (k : Nat),
      k ≤ st.gl.nextId →
      natFind (GPURenderer.applyEffectChainGo cosQ sinQ cfg effects order st
        cur).1.gl.framebuffers k = natFind st.gl.framebuffers k := by
  intro order
  induction order with
  | nil =>
      intro st cur k _
      simp [GPURenderer.applyEffectChainGo]
  | cons name rest ih =>
      intro st cur k hk
      rcases hfind : mapFind effects name with _ | e
      · rw [go_cons_missing cosQ sinQ cfg effects name rest st cur hfind]
        exact ih st cur k hk
      · cases hen : e.m_enabled
        · rw [go_cons_disabled cosQ sinQ cfg effects name rest st cur e
            hfind hen]
          exact ih st cur k hk
        · by_cases hc : 0 < cfg.renderWidth ∧ 0 < cfg.renderHeight
          · cases hav : e.isAvailable
            · rw [go_cons_fail_fst cosQ sinQ cfg effects name rest st cur e
                hfind hen hc hav]
              rw [ih (chainFailState st) cur k
                (by simp only [chainFailState]; omega)]
              rfl
            · rw [go_cons_success_fst cosQ sinQ cfg effects name rest st cur
                e hfind hen hc hav]
              rw [ih (chainOkState st cur e) (st.gl.nextId + 2) k
                (by simp only [chainOkState]; omega)]
              simp only [chainOkState, natFind]
              rw [if_neg (by omega)]
          · rw [go_cons_nonpos cosQ sinQ cfg effects name rest st cur e
              hfind hen hc]
            exact ih { st with gl := { st.gl with
              nextId := st.gl.nextId + 3 } } cur k (by simp only; omega)

theorem go_content_pres (cosQ sinQ : ℚ → ℚ) (cfg : RenderConfig)
    (effects : List (String × GPUEffectState)) :
    ∀ (order : List String) (st : RenderSession) (cur : Nat) (t : Nat),
      t ≤ st.gl.nextId →
      natFind (GPURenderer.applyEffectChainGo cosQ sinQ cfg effects order st
        cur).1.gl.content t = natFind st.gl.content t := by
  intro order
  induction order with
  | nil =>
      intro st cur t _
      simp [GPURenderer.applyEffectChainGo]
  | cons name rest ih =>
      intro st cur t htk
      rcases hfind : mapFind effects name with _ | e
      · rw [go_cons_missing cosQ sinQ cfg effects name rest st cur hfind]
        exact ih st cur t htk
      · cases hen : e.m_enabled
        · rw [go_cons_disabled cosQ sinQ cfg effects name rest st cur e
            hfind hen]
          exact ih st cur t htk
        · by_cases hc : 0 < cfg.renderWidth ∧ 0 < cfg.renderHeight
          · cases hav : e.isAvailable
            · rw [go_cons_fail_fst cosQ sinQ cfg effects name rest st cur e
                hfind hen hc hav]
              rw [ih (chainFailState st) cur t
                (by simp only [chainFailState]; omega)]
              rfl
            · rw [go_cons_success_fst cosQ sinQ cfg effects name rest st cur
                e hfind hen hc hav]
              rw [ih (chainOkState st cur e) (st.gl.nextId + 2) t
                (by simp only [chainOkState]; omega)]
              simp only [chainOkState]
              exact natFind_natInsert_ne _ _ _ _ (by omega)
          · rw [go_cons_nonpos cosQ sinQ cfg effects name rest st cur e
              hfind hen hc]
            exact ih { st with gl := { st.gl with
              nextId := st.gl.nextId + 3 } } cur t (by simp only; omega)

theorem go_events_fresh (cosQ sinQ : ℚ → ℚ) (cfg : RenderConfig)
    (effects : List (String × GPUEffectState)) :
    ∀ (order : List String) (st : RenderSession) (cur : Nat),
      ∀ ev ∈ (GPURenderer.applyEffectChainGo cosQ sinQ cfg effects order st
        cur).2.2, st.gl.nextId < ev.fbo := by
  intro order
  induction order with
  | nil =>
      intro st cur ev hev
      simp [GPURenderer.applyEffectChainGo] at hev
  | cons name rest ih =>
      intro st cur ev hev
      rcases hfind : mapFind effects name with _ | e
      · rw [go_cons_missing cosQ sinQ cfg effects name rest st cur hfind]
          at hev
        exact ih st cur ev hev
      · cases hen : e.m_enabled
        · rw [go_cons_disabled cosQ sinQ cfg effects name rest st cur e
            hfind hen] at hev
          exact ih st cur ev hev
        · by_cases hc : 0 < cfg.renderWidth ∧ 0 < cfg.renderHeight
          · cases hav : e.isAvailable
            · rw [go_cons_fail_events cosQ sinQ cfg effects name rest st cur
                e hfind hen hc hav] at hev
              rcases List.mem_cons.mp hev with h | h
              · subst h; simp
              · have := ih (chainFailState st) cur ev h
                simp only [chainFailState] at this
                omega
            · rw [go_cons_success_events cosQ sinQ cfg effects name rest st
                cur e hfind hen hc hav] at hev
              rcases List.mem_cons.mp hev with h | h
              · subst h; simp
              · have := ih (chainOkState st cur e) (st.gl.nextId + 2) ev h
                simp only [chainOkState] at this
                omega
          · rw [go_cons_nonpos cosQ sinQ cfg effects name rest st cur e
              hfind hen hc] at hev
            have := ih { st with gl := { st.gl with
              nextId := st.gl.nextId + 3 } } cur ev hev
            simp only at this
            omega

theorem go_content_fold (cosQ sinQ : ℚ → ℚ) (cfg : RenderConfig)
    (effects : List (String × GPUEffectState))
    (hw : 0 < cfg.renderWidth) (hh : 0 < cfg.renderHeight) :
    ∀ (order : List String) (st : RenderSession) (cur : Nat),
      (GPURenderer.applyEffectChainGo cosQ sinQ cfg effects order st
        cur).1.gl.contentOf
        (GPURenderer.applyEffectChainGo cosQ sinQ cfg effects order st
          cur).2.1
      = ((order.filterMap (fun n => mapFind effects n)).filter
          (fun e => e.m_enabled && e.isAvailable)).foldl
          (fun f e => Frame.applied e f) (st.gl.contentOf cur) := by
  intro order
  induction order with
  | nil =>
      intro st cur
      simp [GPURenderer.applyEffectChainGo]
  | cons name rest ih =>
      intro st cur
      rcases hfind : mapFind effects name with _ | e
      · rw [go_cons_missing cosQ sinQ cfg effects name rest st cur hfind,
          ih st cur]
        simp [List.filterMap_cons, hfind]
      · cases hen : e.m_enabled
        · rw [go_cons_disabled cosQ sinQ cfg effects name rest st cur e
            hfind hen, ih st cur]
          simp [List.filterMap_cons, hfind, List.filter_cons, hen]
        · have hc : 0 < cfg.renderWidth ∧ 0 < cfg.renderHeight := ⟨hw, hh⟩
          cases hav : e.isAvailable
          · rw [go_cons_fail_fst cosQ sinQ cfg effects name rest st cur e
              hfind hen hc hav,
              go_cons_fail_res cosQ sinQ cfg effects name rest st cur e
                hfind hen hc hav,
              ih (chainFailState st) cur]
            have hco : (chainFailState st).gl.contentOf cur
                = st.gl.contentOf cur := rfl
            rw [hco]
            simp [List.filterMap_cons, hfind, List.filter_cons, hen, hav]
          · rw [go_cons_success_fst cosQ sinQ cfg effects name rest st cur e
              hfind hen hc hav,
              go_cons_success_res cosQ sinQ cfg effects name rest st cur e
                hfind hen hc hav,
              ih (chainOkState st cur e) (st.gl.nextId + 2)]
            have hco : (chainOkState st cur e).gl.contentOf
                (st.gl.nextId + 2) = Frame.applied e (st.gl.contentOf cur) := by
              simp [chainOkState, GLState.contentOf, natFind_natInsert_self]
            rw [hco]
            simp [List.filterMap_cons, hfind, List.filter_cons, hen, hav]

theorem go_failed_freed (cosQ sinQ : ℚ → ℚ) (cfg : RenderConfig)
    (effects : List (String × GPUEffectState)) :
    ∀ (order : List String) (st : RenderSession) (cur : Nat),
      GLState.fbWF st.gl →
      ∀ ev ∈ (GPURenderer.applyEffectChainGo cosQ sinQ cfg effects order st
        cur).2.2, ev.ok = false →
        natFind (GPURenderer.applyEffectChainGo cosQ sinQ cfg effects order
          st cur).1.gl.framebuffers ev.fbo = none := by
  intro order
  induction order with
  | nil =>
      intro st cur _ ev hev
      simp [GPURenderer.applyEffectChainGo] at hev
  | cons name rest ih =>
      intro st cur hwf ev hev hok
      rcases hfind : mapFind effects name with _ | e
      · rw [go_cons_missing cosQ sinQ cfg effects name rest st cur hfind]
          at hev ⊢
        exact ih st cur hwf ev hev hok
      · cases hen : e.m_enabled
        · rw [go_cons_disabled cosQ sinQ cfg effects name rest st cur e
            hfind hen] at hev ⊢
          exact ih st cur hwf ev hev hok
        · by_cases hc : 0 < cfg.renderWidth ∧ 0 < cfg.renderHeight
          · cases hav : e.isAvailable
            · rw [go_cons_fail_events cosQ sinQ cfg effects name rest st cur
                e hfind hen hc hav] at hev
              rw [go_cons_fail_fst cosQ sinQ cfg effects name rest st cur e
                hfind hen hc hav]
              have hwf2 : GLState.fbWF (chainFailState st).gl := by
                intro k t hkt
                have hk := hwf k t hkt
                have hn : (chainFailState st).gl.nextId
                    = st.gl.nextId + 3 := rfl
                rw [hn]
                omega
              rcases List.mem_cons.mp hev with h | h
              · subst h
                rw [go_fb_pres cosQ sinQ cfg effects rest (chainFailState st)
                  cur (st.gl.nextId + 1)
                  (by simp only [chainFailState]; omega)]
                rcases hx : natFind st.gl.framebuffers (st.gl.nextId + 1)
                  with _ | t
                · exact hx
                · exact absurd (hwf _ _ hx) (by omega)
              · exact ih (chainFailState st) cur hwf2 ev h hok
            · rw [go_cons_success_events cosQ sinQ cfg effects name rest st
                cur e hfind hen hc hav] at hev
              rw [go_cons_success_fst cosQ sinQ cfg effects name rest st cur
                e hfind hen hc hav]
              have hwf2 : GLState.fbWF (chainOkState st cur e).gl := by
                intro k t hkt
                have hn : (chainOkState st cur e).gl.nextId
                    = st.gl.nextId + 3 := rfl
                rw [hn]
                simp only [chainOkState, natFind] at hkt
                by_cases hk : st.gl.nextId + 1 = k
                · omega
                · rw [if_neg hk] at hkt
                  have := hwf k t hkt
                  omega
              rcases List.mem_cons.mp hev with h | h
              · subst h
                simp at hok
              · exact ih (chainOkState st cur e) (st.gl.nextId + 2) hwf2 ev
                  h hok
          · rw [go_cons_nonpos cosQ sinQ cfg effects name rest st cur e
              hfind hen hc] at hev ⊢
            have hwf2 : GLState.fbWF ({ st with gl := { st.gl with
                nextId := st.gl.nextId + 3 } } : RenderSession).gl := by
              intro k t hkt
              have := hwf k t hkt
              simp only
              omega
            exact ih _ cur hwf2 ev hev hok

/-! ## Claim C5: the chain folds exactly the successful enabled effects -/

/-- C5: running `applyEffectChain` on any renderer (with a usable render
resolution and a well-formed GL state), the content of the texture it
returns is the left fold of `Frame.applied` over exactly the effects that
are present, enabled and available, in insertion order — disabled effects
pass the texture through unchanged and a failing effect leaves the running
texture unchanged rather than aborting the chain; moreover the framebuffer
allocated for every failing stage has been deleted from the GL state by the
time the chain returns. -/
theorem applyEffectChain_folds_successful (cosQ sinQ : ℚ → ℚ)
    (r : GPURendererState) (st : RenderSession) (input : Nat)
    (hw : 0 < r.m_config.renderWidth) (hh : 0 < r.m_config.renderHeight)
    (hwf : GLState.fbWF st.gl) :
    (GPURenderer.applyEffectChain cosQ sinQ r st input).1.gl.contentOf
        (GPURenderer.applyEffectChain cosQ sinQ r st input).2.1
      = (successfulEffects r).foldl (fun f e => Frame.applied e f)
          (st.gl.contentOf input) ∧
    ∀ ev ∈ (GPURenderer.applyEffectChain cosQ sinQ r st input).2.2,
      ev.ok = false →
      natFind (GPURenderer.applyEffectChain cosQ sinQ r st
        input).1.gl.framebuffers ev.fbo = none := by
  constructor
  · have h := go_content_fold cosQ sinQ r.m_config r.m_effects hw hh
      r.m_effectOrder st input
    simpa [GPURenderer.applyEffectChain, successfulEffects] using h
  · intro ev hev hok
    have h := go_failed_freed cosQ sinQ r.m_config r.m_effects
      r.m_effectOrder st input hwf ev
      (by simpa [GPURenderer.applyEffectChain] using hev) hok
    simpa [GPURenderer.applyEffectChain] using h

/-- Witness for C5 on a renderer with a working effect "A", a disabled "B"
and an unavailable "C": the chain output content is
`Frame.applied effectA` of the input content alone. -/
theorem applyEffectChain_folds_successful_witness :
    ((GPURenderer.applyEffectChain cos0 sin0 rendererMix session0
        7).1.gl.contentOf
        (GPURenderer.applyEffectChain cos0 sin0 rendererMix session0 7).2.1
      = (successfulEffects rendererMix).foldl (fun f e => Frame.applied e f)
          (session0.gl.contentOf 7) ∧
    ∀ ev ∈ (GPURenderer.applyEffectChain cos0 sin0 rendererMix session0
        7).2.2, ev.ok = false →
      natFind (GPURenderer.applyEffectChain cos0 sin0 rendererMix session0
        7).1.gl.framebuffers ev.fbo = none) ∧
    successfulEffects rendererMix = [effectA] :=
  ⟨applyEffectChain_folds_successful cos0 sin0 rendererMix session0 7
      (by decide) (by decide)
      (by intro k t h; simp [session0, gl0, natFind] at h),
   by decide⟩

/-! ## Claim C3: renderToTexture returns a fresh, never-drawn texture -/

theorem createIntermediate_pos_eq (cfg : RenderConfig) (st : RenderSession)
    (hw : 0 < cfg.renderWidth) (hh : 0 < cfg.renderHeight) :
    GPURenderer.createIntermediateFramebuffer cfg st
      = (chainPreState st, st.gl.nextId + 1) := by
  simp [GPURenderer.createIntermediateFramebuffer,
    OpenGLContext.createFramebuffer, if_pos (And.intro hw hh), chainPreState]

theorem renderToTexture_eq (cosQ sinQ : ℚ → ℚ) (r : GPURendererState)
    (st : RenderSession) (input : Nat)
    (hinit : r.contextInitialized = true)
    (hw : 0 < r.m_config.renderWidth) (hh : 0 < r.m_config.renderHeight) :
    GPURenderer.renderToTexture cosQ sinQ r st input
      = ((GPURenderer.applyEffectChainGo cosQ sinQ r.m_config r.m_effects
            r.m_effectOrder (chainPreState st) input).1,
         OpenGLContext.getFramebufferTexture
           (GPURenderer.applyEffectChainGo cosQ sinQ r.m_config r.m_effects
             r.m_effectOrder (chainPreState st) input).1.gl
           (st.gl.nextId + 1),
         (GPURenderer.applyEffectChainGo cosQ sinQ r.m_config r.m_effects
            r.m_effectOrder (chainPreState st) input).2.2) := by
  simp [GPURenderer.renderToTexture, hinit,
    createIntermediate_pos_eq r.m_config st hw hh,
    GPURenderer.applyEffectChain]

theorem renderToTexture_res (cosQ sinQ : ℚ → ℚ) (r : GPURendererState)
    (st : RenderSession) (input : Nat)
    (hinit : r.contextInitialized = true)
    (hw : 0 < r.m_config.renderWidth) (hh : 0 < r.m_config.renderHeight) :
    (GPURenderer.renderToTexture cosQ sinQ r st input).2.1
      = OpenGLContext.getFramebufferTexture
          (GPURenderer.applyEffectChainGo cosQ sinQ r.m_config r.m_effects
            r.m_effectOrder (chainPreState st) input).1.gl
          (st.gl.nextId + 1) := by
  rw [renderToTexture_eq cosQ sinQ r st input hinit hw hh]

theorem renderToTexture_fst (cosQ sinQ : ℚ → ℚ) (r : GPURendererState)
    (st : RenderSession) (input : Nat)
    (hinit : r.contextInitialized = true)
    (hw : 0 < r.m_config.renderWidth) (hh : 0 < r.m_config.renderHeight) :
    (GPURenderer.renderToTexture cosQ sinQ r st input).1
      = (GPURenderer.applyEffectChainGo cosQ sinQ r.m_config r.m_effects
          r.m_effectOrder (chainPreState st) input).1 := by
  rw [renderToTexture_eq cosQ sinQ r st input hinit hw hh]

theorem renderToTexture_events (cosQ sinQ : ℚ → ℚ) (r : GPURendererState)
    (st : RenderSession) (input : Nat)
    (hinit : r.contextInitialized = true)
    (hw : 0 < r.m_config.renderWidth) (hh : 0 < r.m_config.renderHeight) :
    (GPURenderer.renderToTexture cosQ sinQ r st input).2.2
      = (GPURenderer.applyEffectChainGo cosQ sinQ r.m_config r.m_effects
          r.m_effectOrder (chainPreState st) input).2.2 := by
  rw [renderToTexture_eq cosQ sinQ r st input hinit hw hh]

/-- C3: on an initialized renderer with a usable render resolution,
`renderToTexture` returns the color attachment `nextId+2` of the framebuffer
`nextId+1` it allocates *before* the chain runs; that framebuffer is never
passed to any effect's `apply` (all chain stages use strictly fresher
framebuffers); the returned texture's content entry is untouched by the call
(the chain output is computed and discarded); and the returned handle is the
same whatever the effect chain is. -/
theorem renderToTexture_returns_fresh_texture (cosQ sinQ : ℚ → ℚ)
    (r : GPURendererState) (st : RenderSession) (input : Nat)
    (hinit : r.contextInitialized = true)
    (hw : 0 < r.m_config.renderWidth) (hh : 0 < r.m_config.renderHeight) :
    (GPURenderer.renderToTexture cosQ sinQ r st input).2.1
      = st.gl.nextId + 2 ∧
    (∀ ev ∈ (GPURenderer.renderToTexture cosQ sinQ r st input).2.2,
      ev.fbo ≠ st.gl.nextId + 1) ∧
    natFind (GPURenderer.renderToTexture cosQ sinQ r st
        input).1.gl.content (st.gl.nextId + 2)
      = natFind st.gl.content (st.gl.nextId + 2) ∧
    (GPURenderer.renderToTexture cosQ sinQ
        { r with m_effects := [], m_effectOrder := [] } st input).2.1
      = st.gl.nextId + 2 := by
  refine ⟨?_, ?_, ?_, ?_⟩
  · rw [renderToTexture_res cosQ sinQ r st input hinit hw hh]
    unfold OpenGLContext.getFramebufferTexture
    rw [go_fb_pres cosQ sinQ r.m_config r.m_effects r.m_effectOrder
      (chainPreState st) input (st.gl.nextId + 1)
      (by simp only [chainPreState]; omega)]
    simp [chainPreState, natFind]
  · intro ev hev
    rw [renderToTexture_events cosQ sinQ r st input hinit hw hh] at hev
    have h := go_events_fresh cosQ sinQ r.m_config r.m_effects
      r.m_effectOrder (chainPreState st) input ev hev
    have hn : (chainPreState st).gl.nextId = st.gl.nextId + 3 := rfl
    rw [hn] at h
    omega
  · rw [renderToTexture_fst cosQ sinQ r st input hinit hw hh]
    rw [go_content_pres cosQ sinQ r.m_config r.m_effects r.m_effectOrder
      (chainPreState st) input (st.gl.nextId + 2)
      (by simp only [chainPreState]; omega)]
    rfl
  · rw [renderToTexture_res cosQ sinQ
      { r with m_effects := [], m_effectOrder := [] } st input hinit hw hh]
    simp [GPURenderer.applyEffectChainGo,
      OpenGLContext.getFramebufferTexture, chainPreState, natFind]

/-- Witness for C3 on the one-effect renderer: the returned texture is id 2,
the pre-allocated framebuffer is id 1 and no apply call used it. -/
theorem renderToTexture_returns_fresh_texture_witness :
    rendererMix.contextInitialized = true ∧
    ((GPURenderer.renderToTexture cos0 sin0 rendererMix session0 7).2.1
      = session0.gl.nextId + 2 ∧
    (∀ ev ∈ (GPURenderer.renderToTexture cos0 sin0 rendererMix session0
        7).2.2, ev.fbo ≠ session0.gl.nextId + 1) ∧
    natFind (GPURenderer.renderToTexture cos0 sin0 rendererMix session0
        7).1.gl.content (session0.gl.nextId + 2)
      = natFind session0.gl.content (session0.gl.nextId + 2) ∧
    (GPURenderer.renderToTexture cos0 sin0
        { rendererMix with m_effects := [], m_effectOrder := [] } session0
        7).2.1 = session0.gl.nextId + 2) :=
  ⟨rfl, renderToTexture_returns_fresh_texture cos0 sin0 rendererMix session0
    7 rfl (by decide) (by decide)⟩

/-! ## Claim C7: the generic intensity uniform wins over hook writes -/

theorem uniformAtDraw_append_of_no_draw (l rest : List GLCmd) (uname : String)
    (v : ℚ) : ∀ acc : Option ℚ, GLCmd.drawQuad ∉ l →
    uniformAtDraw (l ++ GLCmd.setUniformF uname v :: GLCmd.drawQuad :: rest)
      uname acc = some v := by
  induction l with
  | nil =>
      intro acc _
      simp [uniformAtDraw]
  | cons c l ih =>
      intro acc h
      have hl : GLCmd.drawQuad ∉ l := fun hm => h (List.mem_cons_of_mem c hm)
      cases c
      case drawQuad => exact absurd (List.mem_cons_self _ _) h
      all_goals simp only [List.cons_append, uniformAtDraw]
      all_goals exact ih _ hl

theorem applyCustomUniforms_no_draw (cosQ sinQ : ℚ → ℚ) (e : GPUEffectState)
    (it : Nat) (w ht : Int) :
    GLCmd.drawQuad ∉ GPUEffect.applyCustomUniforms cosQ sinQ e it w ht := by
  obtain ⟨k, nm, cat, sh, ps, defs, inten, en, lut, curve, tm⟩ := e
  cases k
  all_goals simp only [GPUEffect.applyCustomUniforms]
  all_goals simp

/-- C7: in every successful (available, enabled) `GPUEffect::apply` call the
value that the uniform `uIntensity` holds when the draw call is issued is the
effect's stored `m_intensity` — the generic write at gpu_effect.cpp:100
comes after the custom-uniform hook, whatever the hook wrote. -/
theorem uIntensity_at_draw_is_m_intensity (cosQ sinQ : ℚ → ℚ)
    (e : GPUEffectState) (it fb : Nat) (w ht : Int) (s : GLState)
    (hav : e.isAvailable = true) (hen : e.m_enabled = true) :
    uniformAtDraw (GPUEffect.apply cosQ sinQ e it fb w ht s).2.2
      "uIntensity" none = some e.m_intensity := by
  simp only [GPUEffect.apply, hav, hen]
  simp only [Bool.true_eq_false, if_false, List.cons_append, List.nil_append,
    uniformAtDraw]
  exact uniformAtDraw_append_of_no_draw _ _ _ _ _
    (applyCustomUniforms_no_draw cosQ sinQ _ it w ht)

/-- Witness for C7 with a Vignette effect: its hook writes
`uIntensity = m_intensity·softness = 3/10`, yet the value at the draw call is
`m_intensity = 1`. -/
theorem uIntensity_at_draw_is_m_intensity_witness :
    lastUniformF (GPUEffect.applyCustomUniforms cos0 sin0 vignetteReady 1
      64 64) "uIntensity" = some (3/10) ∧
    uniformAtDraw (GPUEffect.apply cos0 sin0 vignetteReady 1 2 64 64
      gl0).2.2 "uIntensity" none = some vignetteReady.m_intensity :=
  ⟨by
     have h0 : lastUniformF (GPUEffect.applyCustomUniforms cos0 sin0
         vignetteReady 1 64 64) "uIntensity"
         = some (vignetteReady.m_intensity
             * vignetteReady.getParameter "softness") := rfl
     have h1 : vignetteReady.getParameter "softness" = 3/10 := rfl
     have h2 : vignetteReady.m_intensity = 1 := rfl
     rw [h0, h1, h2]
     norm_num,
   uIntensity_at_draw_is_m_intensity cos0 sin0 vignetteReady 1 2 64 64 gl0
     (by rfl) (by rfl)⟩

/-! ## Claim C4: per-effect uniform translations -/

/-- C4 (counterexample): the ColorGrade effect binds `uTemperature` to the
*raw* stored parameter (default 1/2), not to `(2p−1)·100` (which is 0 at
p = 1/2): color_grade_effect.cpp:41 passes `getParameter("temperature")`
through unscaled. -/
theorem colorGrade_temperature_not_rescaled :
    lastUniformF (GPUEffect.applyCustomUniforms cos0 sin0 colorGradeReady 1
      64 64) "uTemperature" = some (colorGradeReady.getParameter
      "temperature") ∧
    colorGradeReady.getParameter "temperature" = 1/2 ∧
    ((2 : ℚ) * (1/2) - 1) * 100 = 0 ∧
    ¬ ((1/2 : ℚ) = 0) := by
  refine ⟨by rfl, by rfl, by norm_num, by norm_num⟩

/-- C4 (amended): for effects with an assigned shader — the HSL hook binds
`uHue = (2p−1)·180` (and `uSaturation`/`uLightness = 2p−1`); the ColorGrade
hook binds `uTemperature` and `uTint` to the raw stored parameter values;
the ChromaticAberration hook binds `uOffset` to the direction unit vector
computed with the literal 3.14159 for π, scaled by `amount · 0.02`. -/
theorem effect_uniform_translations (cosQ sinQ : ℚ → ℚ)
    (eh ec ea : GPUEffectState) (it : Nat) (w ht : Int)
    (hh : eh.kind = EffectKind.hsl) (hhs : ¬ eh.m_shader = none)
    (hc : ec.kind = EffectKind.colorGrade) (hcs : ¬ ec.m_shader = none)
    (ha : ea.kind = EffectKind.chromaticAberration)
    (has : ¬ ea.m_shader = none) :
    lastUniformF (GPUEffect.applyCustomUniforms cosQ sinQ eh it w ht) "uHue"
      = some ((eh.getParameter "hue" * 2 - 1) * 180) ∧
    lastUniformF (GPUEffect.applyCustomUniforms cosQ sinQ eh it w ht)
      "uSaturation" = some (eh.getParameter "saturation" * 2 - 1) ∧
    lastUniformF (GPUEffect.applyCustomUniforms cosQ sinQ eh it w ht)
      "uLightness" = some (eh.getParameter "lightness" * 2 - 1) ∧
    lastUniformF (GPUEffect.applyCustomUniforms cosQ sinQ ec it w ht)
      "uTemperature" = some (ec.getParameter "temperature") ∧
    lastUniformF (GPUEffect.applyCustomUniforms cosQ sinQ ec it w ht)
      "uTint" = some (ec.getParameter "tint") ∧
    lastUniformV2 (GPUEffect.applyCustomUniforms cosQ sinQ ea it w ht)
      "uOffset"
      = some (cosQ (ea.getParameter "direction" * (314159/100000) / 180)
                * ea.getParameter "amount" * (2/100),
              sinQ (ea.getParameter "direction" * (314159/100000) / 180)
                * ea.getParameter "amount" * (2/100)) := by
  refine ⟨?_, ?_, ?_, ?_, ?_, ?_⟩
  all_goals simp only [GPUEffect.applyCustomUniforms, hh, hc, ha,
    if_neg hhs, if_neg hcs, if_neg has]
  all_goals try split_ifs
  all_goals simp [lastUniformF, lastUniformV2]

/-- Witness for the amended C4, at the constructor-default parameter values
(shader assigned). -/
theorem effect_uniform_translations_witness :
    lastUniformF (GPUEffect.applyCustomUniforms cos0 sin0 hslReady 1 64 64)
      "uHue" = some ((hslReady.getParameter "hue" * 2 - 1) * 180) ∧
    lastUniformF (GPUEffect.applyCustomUniforms cos0 sin0 hslReady 1 64 64)
      "uSaturation" = some (hslReady.getParameter "saturation" * 2 - 1) ∧
    lastUniformF (GPUEffect.applyCustomUniforms cos0 sin0 hslReady 1 64 64)
      "uLightness" = some (hslReady.getParameter "lightness" * 2 - 1) ∧
    lastUniformF (GPUEffect.applyCustomUniforms cos0 sin0 colorGradeReady 1
      64 64) "uTemperature" = some (colorGradeReady.getParameter
      "temperature") ∧
    lastUniformF (GPUEffect.applyCustomUniforms cos0 sin0 colorGradeReady 1
      64 64) "uTint" = some (colorGradeReady.getParameter "tint") ∧
    lastUniformV2 (GPUEffect.applyCustomUniforms cos0 sin0 chromaReady 1 64
      64) "uOffset"
      = some (cos0 (chromaReady.getParameter "direction" * (314159/100000)
                / 180) * chromaReady.getParameter "amount" * (2/100),
              sin0 (chromaReady.getParameter "direction" * (314159/100000)
                / 180) * chromaReady.getParameter "amount" * (2/100)) :=
  effect_uniform_translations cos0 sin0 hslReady colorGradeReady chromaReady
    1 64 64 rfl (by simp [hslReady, HSLEffect.init, GPUEffect.mk0,
      GPUEffectState.defineParameter]) rfl (by simp [colorGradeReady,
      ColorGradeEffect.init, GPUEffect.mk0, GPUEffectState.defineParameter])
    rfl (by simp [chromaReady, ChromaticAberrationEffect.init,
      GPUEffect.mk0, GPUEffectState.defineParameter])

/-- Witness for C10 at width 0, height 64, on a fresh GL state. -/
theorem createFramebuffer_zero_size_frees_all_witness :
    ((0 : Int) = 0 ∨ (64 : Int) = 0) ∧
    ((OpenGLContext.createFramebuffer gl0 0 64).2 = 0 ∧
     (OpenGLContext.createFramebuffer gl0 0 64).1.framebuffers
       = gl0.framebuffers ∧
     (OpenGLContext.createFramebuffer gl0 0 64).1.textures = gl0.textures ∧
     (OpenGLContext.createFramebuffer gl0 0 64).1.renderbuffers
       = gl0.renderbuffers) :=
  ⟨Or.inl rfl,
   createFramebuffer_zero_size_frees_all gl0 0 64 (Or.inl rfl)⟩

end ClipForge
